import Mathlib

/-!
Verification of the client-side data-synchronization and mutation layer of
the foodify-admin console.

The JavaScript pages are shallowly embedded: each React component's state
triple (collection, loading, error) becomes a Lean structure, each network
handler becomes a pure function from the previous state and the (already
received) HTTP response to the new state, and each `alert` call becomes an
`Option String` notification returned next to the state.  An HTTP response
is modelled as its `ok` flag (status in the success range) together with
the result of `JSON.parse` on its body text: `none` when the body is not
valid JSON, `some b` with `b` the structured value otherwise.
-/

namespace Foodify

/-- One ordered line item of an order (`o.items` entries); `quantity` is
`none` when the field is absent, matching the `i.quantity || 0` guard. -/
structure OrderItem where
  quantity : Option Nat
deriving DecidableEq, Repr

/-- An order record as consumed by `Order-management.jsx`: fields the code
reads defensively (`|| fallback`, template interpolation) are `Option`s. -/
structure Order where
  _id : String
  firstName : Option String
  lastName : Option String
  email : Option String
  phone : Option String
  address : Option String
  city : Option String
  zipCode : Option String
  paymentMethod : Option String
  status : String
  items : List OrderItem
  totalPrice : Option Int
  createdAt : Option String
deriving DecidableEq, Repr

/-- A contact-form submission record as consumed by
`Contact-management.jsx`. -/
structure Contact where
  _id : String
  fullName : Option String
  emailAddress : Option String
  phoneNumber : Option String
  address : Option String
  dishName : Option String
  query : Option String
  createdAt : Option String
deriving DecidableEq, Repr

/-- A menu item as consumed by `ListItemsPage`. -/
structure MenuItem where
  _id : String
  name : Option String
  description : Option String
  category : Option String
  price : Option Int
  rating : Option Nat
  popularity : Option Nat
  image : Option String
deriving DecidableEq, Repr

/-- JavaScript string truthiness of a possibly-absent string: `undefined`,
`null` and `""` are falsy, every other string truthy. -/
def jsStrTruthy : Option String → Bool
  | none => false
  | some s => s != ""

/-- `m || fallback` on a possibly-absent string, as used for
`data.message || "Failed to ..."`. -/
def jsOr (m : Option String) (fallback : String) : String :=
  match m with
  | none => fallback
  | some s => if s = "" then fallback else s

/-- The parsed JSON body of a list response: either a bare array of records
or an envelope object carrying an optional `data` array and an optional
`message` string (`data := none` covers an absent, `null` or otherwise
falsy `data` field). -/
inductive BodyJson (α : Type) where
  | arr (records : List α)
  | obj (data : Option (List α)) (message : Option String)
deriving DecidableEq, Repr

/-- Property access `body.data` (an array has no `data` property). -/
def bodyData {α : Type} : BodyJson α → Option (List α)
  | .arr _ => none
  | .obj d _ => d

/-- Property access `body.message` (an array has no `message` property). -/
def bodyMessage {α : Type} : BodyJson α → Option String
  | .arr _ => none
  | .obj _ m => m

/-- The parsed JSON body of a mutation (PUT/DELETE) response: its `success`
flag (absent counts as falsy) and its optional `message`. -/
structure MutationBody where
  success : Bool
  message : Option String
deriving DecidableEq, Repr

/-- The message of the error thrown by `parseJsonSafely` when
`JSON.parse` fails. -/
def parseFailMsg : String := "Invalid server response (not JSON)."

/-- A row of a rendered table body: the dedicated loading row, the
dedicated error row carrying the inline error message, the dedicated
empty-state row, or one data row per record. -/
inductive Row (α : Type) where
  | loadingRow
  | errorRow (msg : String)
  | emptyRow
  | recordRow (r : α)
deriving DecidableEq, Repr

/-- `orderContent` (Order-management.jsx lines 171-242): the table body
derived from `(orders, loading, error)` — loading row if `loading`, else
error row if `error` is truthy, else empty row if `!orders.length`, else
one row per order. -/
def orderContent (orders : List Order) (loading : Bool) (error : Option String) :
    List (Row Order) :=
  if loading then [Row.loadingRow]
  else if jsStrTruthy error then [Row.errorRow (error.getD "")]
  else if orders.length = 0 then [Row.emptyRow]
  else orders.map Row.recordRow

/-- The contact table body of `ContactManagement` (Contact-management.jsx
lines 134-177): `loading ? … : error ? … : contacts.length ? rows : empty`. -/
def contactTableBody (contacts : List Contact) (loading : Bool) (error : Option String) :
    List (Row Contact) :=
  if loading then [Row.loadingRow]
  else if jsStrTruthy error then [Row.errorRow (error.getD "")]
  else if contacts.length = 0 then [Row.emptyRow]
  else contacts.map Row.recordRow

/-- Local state of the `OrderManagement` component. -/
structure OrdersState where
  orders : List Order
  loading : Bool
  error : Option String
deriving DecidableEq, Repr

/-- Local state of the `ContactManagement` component. -/
structure ContactsState where
  contacts : List Contact
  loading : Bool
  error : Option String
deriving DecidableEq, Repr

/-- `fetchOrders` (Order-management.jsx lines 78-100), as the map from the
previous state and the response to the settled state: on parse failure or
non-ok status the orders are untouched and the inline error is set; on
success the collection becomes `orderData.data || []`; `loading` ends
false in every case (the `finally` block). -/
def fetchOrders (st : OrdersState) (ok : Bool) (parsed : Option (BodyJson Order)) :
    OrdersState :=
  match parsed with
  | none => { st with loading := false, error := some parseFailMsg }
  | some body =>
    if ok then
      { orders := (bodyData body).getD [], loading := false, error := none }
    else
      { st with loading := false,
                error := some (jsOr (bodyMessage body) "Failed to fetch orders") }

/-- `fetchContacts` (Contact-management.jsx lines 44-63): accepts a bare
array body or an envelope (`Array.isArray(data) ? data : data.data || []`). -/
def fetchContacts (st : ContactsState) (ok : Bool) (parsed : Option (BodyJson Contact)) :
    ContactsState :=
  match parsed with
  | none => { st with loading := false, error := some parseFailMsg }
  | some body =>
    if ok then
      { contacts :=
          match body with
          | .arr rs => rs
          | .obj d _ => d.getD [],
        loading := false, error := none }
    else
      { st with loading := false,
                error := some (jsOr (bodyMessage body) "Failed to fetch contacts") }

/-- `updateStatus` (Order-management.jsx lines 105-125): issues a PUT and,
on `res.ok && data.success`, patches only the `status` field of the
matching local records; any failure leaves the state untouched and raises
an `alert` (returned as the `Option String` notification). -/
def updateStatus (st : OrdersState) (id newStatus : String) (ok : Bool)
    (parsed : Option MutationBody) : OrdersState × Option String :=
  match parsed with
  | none => (st, some ("Error updating status: " ++ parseFailMsg))
  | some data =>
    if ok && data.success then
      ({ st with orders :=
          st.orders.map (fun o => if o._id = id then { o with status := newStatus } else o) },
       none)
    else
      (st, some ("Error updating status: " ++ jsOr data.message "Failed to update order"))

/-- `deleteOrder` (Order-management.jsx lines 128-145): a declined
confirmation is a no-op with no request; otherwise the DELETE is issued
unconditionally (third component `true`), and only `res.ok && data.success`
removes the matching records locally. -/
def deleteOrder (st : OrdersState) (id : String) (confirmed ok : Bool)
    (parsed : Option MutationBody) : OrdersState × Option String × Bool :=
  if !confirmed then (st, none, false)
  else
    match parsed with
    | none => (st, some ("Error deleting order: " ++ parseFailMsg), true)
    | some data =>
      if ok && data.success then
        ({ st with orders := st.orders.filter (fun o => o._id ≠ id) }, none, true)
      else
        (st, some ("Error deleting order: " ++ jsOr data.message "Failed to delete order"),
         true)

/-- `deleteContact` (Contact-management.jsx lines 68-84): like
`deleteOrder` but success is decided by `res.ok` alone (no `success`
flag check). -/
def deleteContact (st : ContactsState) (id : String) (confirmed ok : Bool)
    (parsed : Option MutationBody) : ContactsState × Option String × Bool :=
  if !confirmed then (st, none, false)
  else
    match parsed with
    | none => (st, some ("Error deleting contact: " ++ parseFailMsg), true)
    | some data =>
      if ok then
        ({ st with contacts := st.contacts.filter (fun c => c._id ≠ id) }, none, true)
      else
        (st, some ("Error deleting contact: " ++ jsOr data.message "Failed to delete contact"),
         true)

/-- The parsed body consumed by `ListItemsPage.fetchItems`:
`{ success, data, message }`. -/
structure MenuBody where
  success : Bool
  data : List MenuItem
  message : Option String
deriving DecidableEq, Repr

/-- `fetchItems` (ListItemsPage): `res.json()` then branch on
`data.success` only — the `ok` status flag of the response is never read.
A parse failure alerts "Error fetching items"; a falsy `success` alerts
"Failed to fetch items"; otherwise the items are replaced. -/
def fetchItems (items : List MenuItem) (_ok : Bool) (parsed : Option MenuBody) :
    List MenuItem × Option String :=
  match parsed with
  | none => (items, some "Error fetching items")
  | some data =>
    if data.success then (data.data, none)
    else (items, some "Failed to fetch items")

/-- `handleDelete` (ListItemsPage): confirmation, then DELETE, then branch
on `data.success` only — again `res.ok` is never read. -/
def handleDelete (items : List MenuItem) (id : String) (confirmed _ok : Bool)
    (parsed : Option MutationBody) : List MenuItem × Option String × Bool :=
  if !confirmed then (items, none, false)
  else
    match parsed with
    | none => (items, some "Error deleting item", true)
    | some data =>
      if data.success then (items.filter (fun i => i._id ≠ id), none, true)
      else (items, some (jsOr data.message "Failed to delete item"), true)

/-- Local state of the combined `AdminPanel` page.  Its contact collection
is stored as whatever `JSON.parse` produced (`setContacts(contactData || [])`
keeps the parsed body as-is for every non-null body), so the field holds a
`BodyJson`, with the initial `[]` being the bare empty array. -/
structure AdminState where
  orders : List Order
  contacts : BodyJson Contact
  loading : Bool
  error : Option String
deriving DecidableEq, Repr

/-- `fetchData` (AdminPanel, part_000 lines 110-143): both bodies are
parsed first, then the two `ok` flags are checked in order, then both
collections are set; the order collection from `orderData.data || []`, the
contact one from the raw `contactData`. -/
def fetchData (st : AdminState) (orderOk : Bool) (orderParsed : Option (BodyJson Order))
    (contactOk : Bool) (contactParsed : Option (BodyJson Contact)) : AdminState :=
  match orderParsed with
  | none => { st with loading := false, error := some parseFailMsg }
  | some orderData =>
    match contactParsed with
    | none => { st with loading := false, error := some parseFailMsg }
    | some contactData =>
      if !orderOk then
        { st with loading := false,
                  error := some (jsOr (bodyMessage orderData) "Failed to fetch orders") }
      else if !contactOk then
        { st with loading := false,
                  error := some (jsOr (bodyMessage contactData) "Failed to fetch contacts") }
      else
        { orders := (bodyData orderData).getD [], contacts := contactData,
          loading := false, error := none }

/-- `totalQty` (Order-management.jsx line 55): sum of the `quantity`
fields, absent quantities counting 0. -/
def totalQty (items : List OrderItem) : Nat :=
  items.foldl (fun n i => n + i.quantity.getD 0) 0

/-- `formatDate` (Order-management.jsx line 57), parametrised by the
external locale formatter (`Date.toLocaleString`): a falsy date renders as
the em dash placeholder. -/
def formatDate (fmt : String → String) (d : Option String) : String :=
  match d with
  | none => "—"
  | some s => if s = "" then "—" else fmt s

/-- One row of the Orders worksheet built by `exportOrdersToExcel`
(Order-management.jsx lines 148-168).  Fields the code passes through raw
stay `Option`s: an absent source field yields an absent cell value. -/
structure OrderRow where
  ID : String
  Name : String
  Email : Option String
  Phone : Option String
  Address : Option String
  City : Option String
  ZipCode : Option String
  Payment : Option String
  Status : String
  TotalItems : Nat
  TotalPrice : Option Int
  CreatedAt : String
deriving DecidableEq, Repr

/-- The row list of `exportOrdersToExcel`: a pure projection of the current
local collection (no request is issued). -/
def exportOrdersRows (fmt : String → String) (orders : List Order) : List OrderRow :=
  orders.map (fun o =>
    { ID := o._id,
      Name := o.firstName.getD "" ++ " " ++ o.lastName.getD "",
      Email := o.email,
      Phone := o.phone,
      Address := o.address,
      City := o.city,
      ZipCode := o.zipCode,
      Payment := o.paymentMethod,
      Status := o.status,
      TotalItems := totalQty o.items,
      TotalPrice := o.totalPrice,
      CreatedAt := formatDate fmt o.createdAt })

/-- One row of the Contacts worksheet built by `exportContactsToExcel`
(Contact-management.jsx lines 87-104). -/
structure ContactRow where
  ID : String
  Name : Option String
  Email : Option String
  Phone : Option String
  Address : Option String
  Dish : Option String
  Message : Option String
  CreatedAt : String
deriving DecidableEq, Repr

/-- The row list of `exportContactsToExcel`: again a pure projection. -/
def exportContactsRows (fmt : String → String) (contacts : List Contact) :
    List ContactRow :=
  contacts.map (fun c =>
    { ID := c._id,
      Name := c.fullName,
      Email := c.emailAddress,
      Phone := c.phoneNumber,
      Address := c.address,
      Dish := c.dishName,
      Message := c.query,
      CreatedAt := formatDate fmt c.createdAt })

/-- Initial state of `OrderManagement` (lines 60-62:
`useState([])`, `useState(true)`, `useState(null)`). -/
def OrderManagement_initial : OrdersState :=
  { orders := [], loading := true, error := none }

/-- Initial state of `ContactManagement` (lines 28-30). -/
def ContactManagement_initial : ContactsState :=
  { contacts := [], loading := true, error := none }

/-- Initial state of `AdminPanel` (part_000 lines 91-94). -/
def AdminPanel_initial : AdminState :=
  { orders := [], contacts := .arr [], loading := true, error := none }

/-- Local state of `ListItemsPage`: items and a loading flag only — the
page has no inline error state. -/
structure ListItemsState where
  items : List MenuItem
  loading : Bool
deriving DecidableEq, Repr

/-- Initial state of `ListItemsPage` (`useState([])`, `useState(false)`). -/
def ListItemsPage_initial : ListItemsState :=
  { items := [], loading := false }

/-- The pairwise-distinct-identifiers invariant on an order collection. -/
def orderIdsNodup (orders : List Order) : Prop :=
  (orders.map (fun o => o._id)).Nodup

/-! Sample records used by the concrete witnesses and counterexamples. -/

/-- A sample order with identifier `"o1"`. -/
def o0 : Order :=
  { _id := "o1", firstName := some "Ada", lastName := some "L",
    email := some "ada@example.com", phone := some "123", address := some "1 Main St",
    city := some "Lahore", zipCode := some "54000", paymentMethod := some "cod",
    status := "pending", items := [{ quantity := some 2 }], totalPrice := some 30,
    createdAt := some "2025-01-01T00:00:00Z" }

/-- A sample order missing several optional fields (no email, no date). -/
def oNoEmail : Order :=
  { _id := "o2", firstName := none, lastName := none, email := none, phone := none,
    address := none, city := none, zipCode := none, paymentMethod := none,
    status := "pending", items := [], totalPrice := none, createdAt := none }

/-- A sample contact message. -/
def c0 : Contact :=
  { _id := "c1", fullName := some "Bo", emailAddress := some "bo@example.com",
    phoneNumber := none, address := none, dishName := some "Pizza",
    query := some "hello", createdAt := none }

/-- A sample menu item. -/
def m0 : MenuItem :=
  { _id := "m1", name := some "Margherita", description := none,
    category := some "Pizza", price := some 10, rating := some 4,
    popularity := some 3, image := none }

/-! Helper lemmas shared across the claims. -/

/-- A string of length zero is the empty string. -/
lemma str_eq_empty_of_length_zero (s : String) (h : s.length = 0) : s = "" := by
  cases s with
  | mk data =>
    cases data with
    | nil => rfl
    | cons a as => simp [String.length] at h

/-- Appending to a non-empty string stays non-empty. -/
lemma append_ne_empty (s t : String) (h : s ≠ "") : s ++ t ≠ "" := by
  intro he
  apply h
  have hlen := congrArg String.length he
  rw [String.length_append] at hlen
  have hz : String.length "" = 0 := rfl
  exact str_eq_empty_of_length_zero s (by omega)

/-- `m || fallback` is non-empty whenever the fallback is. -/
lemma jsOr_ne_empty (m : Option String) (fb : String) (h : fb ≠ "") : jsOr m fb ≠ "" := by
  cases m with
  | none => simpa [jsOr]
  | some s =>
    by_cases hs : s = "" <;> simp [jsOr, hs, h]

/-! Claims. -/

/-- C1: for every controller state (collection, loading, error) with a
well-formed error (never the truthy-ambiguous `some ""`, which no code
path produces), the rendered table body obeys the four-way precedence:
loading row if loading; else error row if an error is set; else one row
per record when non-empty; else the empty-state row.  In particular
loading suppresses a stale error row and a non-empty collection
suppresses the empty-state row. -/
theorem C1_render_precedence (orders : List Order) (contacts : List Contact)
    (loading : Bool) (error : Option String)
    (herr : ∀ e, error = some e → e ≠ "") :
    (loading = true →
      orderContent orders loading error = [Row.loadingRow] ∧
      contactTableBody contacts loading error = [Row.loadingRow]) ∧
    (∀ e, loading = false → error = some e →
      orderContent orders loading error = [Row.errorRow e] ∧
      contactTableBody contacts loading error = [Row.errorRow e]) ∧
    (loading = false → error = none → orders ≠ [] →
      orderContent orders loading error = orders.map Row.recordRow) ∧
    (loading = false → error = none → contacts ≠ [] →
      contactTableBody contacts loading error = contacts.map Row.recordRow) ∧
    (loading = false → error = none → orders = [] →
      orderContent orders loading error = [Row.emptyRow]) ∧
    (loading = false → error = none → contacts = [] →
      contactTableBody contacts loading error = [Row.emptyRow]) := by
  refine ⟨?_, ?_, ?_, ?_, ?_, ?_⟩
  · rintro rfl
    exact ⟨by simp [orderContent], by simp [contactTableBody]⟩
  · rintro e rfl rfl
    have hne : e ≠ "" := herr e rfl
    exact ⟨by simp [orderContent, jsStrTruthy, hne],
           by simp [contactTableBody, jsStrTruthy, hne]⟩
  · rintro rfl rfl h
    simp [orderContent, jsStrTruthy, List.length_eq_zero, h]
  · rintro rfl rfl h
    simp [contactTableBody, jsStrTruthy, List.length_eq_zero, h]
  · rintro rfl rfl rfl
    simp [orderContent, jsStrTruthy]
  · rintro rfl rfl rfl
    simp [contactTableBody, jsStrTruthy]

/-- Witness for C1: a loaded, error-free, non-empty order collection
renders one row per record, and an empty contact collection renders the
empty-state row. -/
theorem C1_witness :
    orderContent [o0] false none = [Row.recordRow o0] ∧
    contactTableBody [] false none = [Row.emptyRow] := by
  have h := C1_render_precedence [o0] [] false none (fun e he => by cases he)
  exact ⟨by simpa using h.2.2.1 rfl rfl (by simp),
         h.2.2.2.2.2 rfl rfl rfl⟩

/-- C2 counterexample: the menu-items page gateway call `fetchItems`
reports success on a non-2xx response (`ok = false`) whose body parses
with a truthy `success` flag — the collection is replaced and no failure
is surfaced — refuting the claim that a non-2xx status is always treated
as failure. -/
theorem C2_counterexample :
    (fetchItems [] false (some { success := true, data := [m0], message := none })).1
        = [m0] ∧
    (fetchItems [] false (some { success := true, data := [m0], message := none })).2
        = none :=
  ⟨rfl, rfl⟩

/-- C2 (amended): in the order and contact controllers every gateway call
is reported successful exactly when the HTTP status is ok and the body
parses; a non-ok status is a failure even with a parsed body, with the
message taken from the body's `message` field when truthy and a generic
per-operation fallback otherwise; an unparsable body is always a parse
failure.  The menu-items page is the exception: its calls ignore the
HTTP status entirely (success is decided solely by the body's `success`
flag), though an unparsable body is still never a success there. -/
theorem C2_gateway_success_criteria :
    (∀ st ok, (fetchOrders st ok none).error = some parseFailMsg) ∧
    (∀ st body, fetchOrders st false (some body) =
        { st with loading := false,
                  error := some (jsOr (bodyMessage body) "Failed to fetch orders") }) ∧
    (∀ st ok parsed, (fetchOrders st ok parsed).error = none ↔
        ok = true ∧ parsed ≠ none) ∧
    (∀ st ok, (fetchContacts st ok none).error = some parseFailMsg) ∧
    (∀ st body, fetchContacts st false (some body) =
        { st with loading := false,
                  error := some (jsOr (bodyMessage body) "Failed to fetch contacts") }) ∧
    (∀ st ok parsed, (fetchContacts st ok parsed).error = none ↔
        ok = true ∧ parsed ≠ none) ∧
    (∀ st id ns ok, (updateStatus st id ns ok none).2 =
        some ("Error updating status: " ++ parseFailMsg)) ∧
    (∀ st id ns d, updateStatus st id ns false (some d) =
        (st, some ("Error updating status: " ++ jsOr d.message "Failed to update order"))) ∧
    (∀ st id ns ok parsed, (updateStatus st id ns ok parsed).2 = none ↔
        ok = true ∧ ∃ d, parsed = some d ∧ d.success = true) ∧
    (∀ st id ok, (deleteOrder st id true ok none).2.1 =
        some ("Error deleting order: " ++ parseFailMsg)) ∧
    (∀ st id d, deleteOrder st id true false (some d) =
        (st, some ("Error deleting order: " ++ jsOr d.message "Failed to delete order"),
         true)) ∧
    (∀ st id ok parsed, (deleteOrder st id true ok parsed).2.1 = none ↔
        ok = true ∧ ∃ d, parsed = some d ∧ d.success = true) ∧
    (∀ st id ok, (deleteContact st id true ok none).2.1 =
        some ("Error deleting contact: " ++ parseFailMsg)) ∧
    (∀ st id d, deleteContact st id true false (some d) =
        (st, some ("Error deleting contact: " ++ jsOr d.message "Failed to delete contact"),
         true)) ∧
    (∀ st id ok parsed, (deleteContact st id true ok parsed).2.1 = none ↔
        ok = true ∧ parsed ≠ none) ∧
    (∀ items parsed, fetchItems items false parsed = fetchItems items true parsed) ∧
    (∀ items ok, (fetchItems items ok none).2 = some "Error fetching items") := by
  refine ⟨fun st ok => rfl, fun st body => rfl, ?_, fun st ok => rfl, fun st body => rfl,
      ?_, fun st id ns ok => rfl, fun st id ns d => rfl, ?_, fun st id ok => rfl,
      fun st id d => rfl, ?_, fun st id ok => rfl, fun st id d => rfl, ?_,
      fun items parsed => rfl, fun items ok => rfl⟩
  · intro st ok parsed
    cases parsed with
    | none => cases ok <;> simp [fetchOrders]
    | some body => cases ok <;> simp [fetchOrders]
  · intro st ok parsed
    cases parsed with
    | none => cases ok <;> simp [fetchContacts]
    | some body => cases ok <;> simp [fetchContacts]
  · intro st id ns ok parsed
    cases parsed with
    | none => cases ok <;> simp [updateStatus]
    | some d =>
      cases ok with
      | false => simp [updateStatus]
      | true => cases hd : d.success <;> simp [updateStatus, hd]
  · intro st id ok parsed
    cases parsed with
    | none => cases ok <;> simp [deleteOrder]
    | some d =>
      cases ok with
      | false => simp [deleteOrder]
      | true => cases hd : d.success <;> simp [deleteOrder, hd]
  · intro st id ok parsed
    cases parsed with
    | none => cases ok <;> simp [deleteContact]
    | some d => cases ok <;> simp [deleteContact]

/-- C3 counterexample: a successful order-list fetch whose body is the
bare array `[o0]` does not replace the collection with the server's
returned set — `orderData.data || []` on an array yields `[]`. -/
theorem C3_counterexample :
    (fetchOrders OrderManagement_initial true (some (BodyJson.arr [o0]))).orders = [] ∧
    [o0] ≠ ([] : List Order) :=
  ⟨rfl, by simp⟩

/-- C3 (amended): every successful list fetch sets loading=false, clears
the inline error and replaces the collection — but only the contact page
accepts both a bare array and an envelope's data field; the order fetches
(both pages) read only the envelope's `data` field, so a bare-array body
yields the empty collection; and the combined admin panel stores the
parsed contact body itself as the collection. -/
theorem C3_fetch_replaces_collection :
    (∀ st rs m, fetchOrders st true (some (BodyJson.obj (some rs) m)) =
        { orders := rs, loading := false, error := none }) ∧
    (∀ st rs, fetchOrders st true (some (BodyJson.arr rs)) =
        { orders := [], loading := false, error := none }) ∧
    (∀ st rs, fetchContacts st true (some (BodyJson.arr rs)) =
        { contacts := rs, loading := false, error := none }) ∧
    (∀ st rs m, fetchContacts st true (some (BodyJson.obj (some rs) m)) =
        { contacts := rs, loading := false, error := none }) ∧
    (∀ st rs m cb, fetchData st true (some (BodyJson.obj (some rs) m)) true (some cb) =
        { orders := rs, contacts := cb, loading := false, error := none }) :=
  ⟨fun _ _ _ => rfl, fun _ _ => rfl, fun _ _ => rfl, fun _ _ _ => rfl,
   fun _ _ _ _ => rfl⟩

/-- A collection's length splits into the records matching a given
identifier and those not matching it. -/
lemma length_filter_id_split (l : List Order) (id : String) :
    (l.filter (fun o => o._id = id)).length +
      (l.filter (fun o => o._id ≠ id)).length = l.length := by
  induction l with
  | nil => rfl
  | cons a as ih =>
    simp only [ne_eq, decide_not] at ih ⊢
    by_cases h : a._id = id <;> simp [List.filter_cons, h] <;> omega

/-- C4: for every collection containing exactly one record with
identifier `id`, a confirmed delete that the gateway reports successful
shrinks the collection's length by exactly one, leaves no record with
identifier `id`, and retains every record with a different identifier;
and a delete is always attempted against the server once confirmed — the
request is issued for every collection and id, with a server-reported
failure surfacing per the server contract instead of being
short-circuited locally. -/
theorem C4_delete_success (st : OrdersState) (id : String) (m : Option String)
    (huniq : (st.orders.filter (fun o => o._id = id)).length = 1) :
    (deleteOrder st id true true (some ⟨true, m⟩)).1.orders.length + 1 =
      st.orders.length ∧
    (∀ o ∈ (deleteOrder st id true true (some ⟨true, m⟩)).1.orders, o._id ≠ id) ∧
    (∀ o ∈ st.orders, o._id ≠ id →
      o ∈ (deleteOrder st id true true (some ⟨true, m⟩)).1.orders) ∧
    (∀ st2 id2 ok parsed, (deleteOrder st2 id2 true ok parsed).2.2 = true) ∧
    (∀ st2 id2 d, deleteOrder st2 id2 true false (some d) =
        (st2, some ("Error deleting order: " ++ jsOr d.message "Failed to delete order"),
         true)) := by
  have hres : (deleteOrder st id true true (some ⟨true, m⟩)).1.orders =
      st.orders.filter (fun o => o._id ≠ id) := rfl
  refine ⟨?_, ?_, ?_, ?_, fun st2 id2 d => rfl⟩
  · rw [hres]
    have hsplit := length_filter_id_split st.orders id
    omega
  · intro o ho
    rw [hres] at ho
    simpa using List.of_mem_filter ho
  · intro o ho hne
    rw [hres]
    exact List.mem_filter.mpr ⟨ho, by simpa using hne⟩
  · intro st2 id2 ok parsed
    cases parsed with
    | none => rfl
    | some d => by_cases h : (ok && d.success) = true <;> simp [deleteOrder, h]

/-- Witness for C4: deleting identifier "o1" from the two-record
collection `[o0, oNoEmail]` (which holds exactly one record with that
identifier) shrinks it from 2 to 1 and keeps the other record. -/
theorem C4_witness :
    (deleteOrder ⟨[o0, oNoEmail], false, none⟩ "o1" true true
        (some ⟨true, none⟩)).1.orders.length + 1 = 2 ∧
    oNoEmail ∈ (deleteOrder ⟨[o0, oNoEmail], false, none⟩ "o1" true true
        (some ⟨true, none⟩)).1.orders := by
  have h := C4_delete_success ⟨[o0, oNoEmail], false, none⟩ "o1" none (by decide)
  exact ⟨h.1, h.2.2.1 oNoEmail (by decide) (by decide)⟩

/-- C5: a successful `UpdateStatus(id, newStatus)` is a frame-preserving
patch — loading and inline error are untouched, the collection keeps its
length and order, every record whose identifier differs from `id` is
unchanged, and a record whose identifier equals `id` changes exactly its
status field, all other fields staying equal. -/
theorem C5_update_frame (st : OrdersState) (id ns : String) (m : Option String) :
    (updateStatus st id ns true (some ⟨true, m⟩)).1.loading = st.loading ∧
    (updateStatus st id ns true (some ⟨true, m⟩)).1.error = st.error ∧
    (updateStatus st id ns true (some ⟨true, m⟩)).1.orders.length = st.orders.length ∧
    (∀ (i : Nat) (o : Order), st.orders[i]? = some o → o._id ≠ id →
      (updateStatus st id ns true (some ⟨true, m⟩)).1.orders[i]? = some o) ∧
    (∀ (i : Nat) (o : Order), st.orders[i]? = some o → o._id = id →
      ∃ o2, (updateStatus st id ns true (some ⟨true, m⟩)).1.orders[i]? = some o2 ∧
        o2.status = ns ∧ o2._id = o._id ∧ o2.firstName = o.firstName ∧
        o2.lastName = o.lastName ∧ o2.email = o.email ∧ o2.phone = o.phone ∧
        o2.address = o.address ∧ o2.city = o.city ∧ o2.zipCode = o.zipCode ∧
        o2.paymentMethod = o.paymentMethod ∧ o2.items = o.items ∧
        o2.totalPrice = o.totalPrice ∧ o2.createdAt = o.createdAt) := by
  have hres : (updateStatus st id ns true (some ⟨true, m⟩)).1.orders =
      st.orders.map (fun o => if o._id = id then { o with status := ns } else o) := rfl
  refine ⟨rfl, rfl, by rw [hres, List.length_map], ?_, ?_⟩
  · intro i o ho hne
    rw [hres, List.getElem?_map, ho]
    simp [hne]
  · intro i o ho heq
    refine ⟨{ o with status := ns }, ?_, rfl, rfl, rfl, rfl, rfl, rfl, rfl, rfl, rfl,
        rfl, rfl, rfl, rfl⟩
    rw [hres, List.getElem?_map, ho]
    simp [heq]

/-- Witness for C5: updating a non-matching id leaves the record at index
0 unchanged. -/
theorem C5_witness :
    (updateStatus ⟨[o0], false, none⟩ "zzz" "delivered" true
        (some ⟨true, none⟩)).1.orders[0]? = some o0 :=
  (C5_update_frame ⟨[o0], false, none⟩ "zzz" "delivered" none).2.2.2.1 0 o0 rfl
    (by decide)

/-- C6: every failed mutation — status update, order delete, contact
delete or menu-item delete, whether the failure is an unparsable body, a
non-ok status or a falsy success flag — leaves the whole controller state
(collection and inline error alike) exactly as it was, and surfaces a
blocking notification carrying a non-empty message. -/
theorem C6_mutation_failure_frame :
    (∀ st id ns ok parsed, (updateStatus st id ns ok parsed).2 ≠ none →
      (updateStatus st id ns ok parsed).1 = st) ∧
    (∀ st id ns ok parsed msg, (updateStatus st id ns ok parsed).2 = some msg →
      msg ≠ "") ∧
    (∀ st id c ok parsed, (deleteOrder st id c ok parsed).2.1 ≠ none →
      (deleteOrder st id c ok parsed).1 = st) ∧
    (∀ st id c ok parsed msg, (deleteOrder st id c ok parsed).2.1 = some msg →
      msg ≠ "") ∧
    (∀ st id c ok parsed, (deleteContact st id c ok parsed).2.1 ≠ none →
      (deleteContact st id c ok parsed).1 = st) ∧
    (∀ st id c ok parsed msg, (deleteContact st id c ok parsed).2.1 = some msg →
      msg ≠ "") ∧
    (∀ items id c ok parsed, (handleDelete items id c ok parsed).2.1 ≠ none →
      (handleDelete items id c ok parsed).1 = items) ∧
    (∀ items id c ok parsed msg, (handleDelete items id c ok parsed).2.1 = some msg →
      msg ≠ "") := by
  have hpre : ∀ pre msg, pre ≠ "" → ∀ s : String, some (pre ++ s) = some msg → msg ≠ "" := by
    intro pre msg hps s hsome
    cases hsome
    exact append_ne_empty pre s hps
  refine ⟨?_, ?_, ?_, ?_, ?_, ?_, ?_, ?_⟩
  · intro st id ns ok parsed h
    cases parsed with
    | none => rfl
    | some d =>
      by_cases hb : (ok && d.success) = true
      · exact absurd (by simp [updateStatus, hb]) h
      · simp [updateStatus, hb]
  · intro st id ns ok parsed msg h
    cases parsed with
    | none => exact hpre "Error updating status: " msg (by decide) parseFailMsg (by simpa [updateStatus] using h)
    | some d =>
      by_cases hb : (ok && d.success) = true
      · simp [updateStatus, hb] at h
      · exact hpre "Error updating status: " msg (by decide) _ (by simpa [updateStatus, hb] using h)
  · intro st id c ok parsed h
    cases c with
    | false => rfl
    | true =>
      cases parsed with
      | none => rfl
      | some d =>
        by_cases hb : (ok && d.success) = true
        · exact absurd (by simp [deleteOrder, hb]) h
        · simp [deleteOrder, hb]
  · intro st id c ok parsed msg h
    cases c with
    | false => simp [deleteOrder] at h
    | true =>
      cases parsed with
      | none => exact hpre "Error deleting order: " msg (by decide) parseFailMsg (by simpa [deleteOrder] using h)
      | some d =>
        by_cases hb : (ok && d.success) = true
        · simp [deleteOrder, hb] at h
        · exact hpre "Error deleting order: " msg (by decide) _ (by simpa [deleteOrder, hb] using h)
  · intro st id c ok parsed h
    cases c with
    | false => rfl
    | true =>
      cases parsed with
      | none => rfl
      | some d =>
        cases ok with
        | true => exact absurd (by simp [deleteContact]) h
        | false => simp [deleteContact]
  · intro st id c ok parsed msg h
    cases c with
    | false => simp [deleteContact] at h
    | true =>
      cases parsed with
      | none => exact hpre "Error deleting contact: " msg (by decide) parseFailMsg (by simpa [deleteContact] using h)
      | some d =>
        cases ok with
        | true => simp [deleteContact] at h
        | false => exact hpre "Error deleting contact: " msg (by decide) _ (by simpa [deleteContact] using h)
  · intro items id c ok parsed h
    cases c with
    | false => rfl
    | true =>
      cases parsed with
      | none => rfl
      | some d =>
        cases hd : d.success with
        | true => exact absurd (by simp [handleDelete, hd]) h
        | false => simp [handleDelete, hd]
  · intro items id c ok parsed msg h
    cases c with
    | false => simp [handleDelete] at h
    | true =>
      cases parsed with
      | none =>
        have : msg = "Error deleting item" := by simpa [handleDelete] using h.symm
        subst this
        decide
      | some d =>
        cases hd : d.success with
        | true => simp [handleDelete, hd] at h
        | false =>
          have : jsOr d.message "Failed to delete item" = msg := by
            simpa [handleDelete, hd] using h
          rw [← this]
          exact jsOr_ne_empty d.message "Failed to delete item" (by decide)

/-- Witness for C6: a status update whose body has a falsy success flag
leaves the state untouched and its alert message is non-empty. -/
theorem C6_witness :
    (updateStatus ⟨[o0], false, none⟩ "o1" "delivered" true
        (some ⟨false, none⟩)).1 = ⟨[o0], false, none⟩ ∧
    "Error updating status: Failed to update order" ≠ "" := by
  refine ⟨C6_mutation_failure_frame.1 ⟨[o0], false, none⟩ "o1" "delivered" true
      (some ⟨false, none⟩) (by simp [updateStatus, jsOr]), ?_⟩
  exact C6_mutation_failure_frame.2.1 ⟨[o0], false, none⟩ "o1" "delivered" true
    (some ⟨false, none⟩) _ (by simp [updateStatus, jsOr])

/-- C7 counterexample: exporting an order whose optional email and date
are missing yields a row whose Email cell is absent, not the empty
string, and whose CreatedAt cell is the em dash placeholder, not the
empty string — refuting "missing optional fields rendered as the empty
string rather than omitted". -/
theorem C7_counterexample :
    (exportOrdersRows (fun s => s) [oNoEmail]).map OrderRow.Email = [none] ∧
    (none : Option String) ≠ some "" ∧
    (exportOrdersRows (fun s => s) [oNoEmail]).map OrderRow.CreatedAt = ["—"] :=
  ⟨rfl, by simp, rfl⟩

/-- C7 (amended): for every fixed input collection, Export produces
exactly one output row per input record, in input order, each row
carrying every declared column; the combined Name column defaults missing
name components to the empty string and a missing date renders as the em
dash placeholder, while the remaining missing optional fields are carried
through as absent values rather than as empty strings; the export is a
pure projection of the current local collection (the external locale date
formatter aside) and issues no request. -/
theorem C7_export_shape (fmt : String → String) (orders : List Order)
    (contacts : List Contact) :
    (exportOrdersRows fmt orders).length = orders.length ∧
    (∀ (i : Nat) (o : Order), orders[i]? = some o →
      (exportOrdersRows fmt orders)[i]? = some
        { ID := o._id, Name := o.firstName.getD "" ++ " " ++ o.lastName.getD "",
          Email := o.email, Phone := o.phone, Address := o.address, City := o.city,
          ZipCode := o.zipCode, Payment := o.paymentMethod, Status := o.status,
          TotalItems := totalQty o.items, TotalPrice := o.totalPrice,
          CreatedAt := formatDate fmt o.createdAt }) ∧
    (exportContactsRows fmt contacts).length = contacts.length ∧
    (∀ (i : Nat) (c : Contact), contacts[i]? = some c →
      (exportContactsRows fmt contacts)[i]? = some
        { ID := c._id, Name := c.fullName, Email := c.emailAddress,
          Phone := c.phoneNumber, Address := c.address, Dish := c.dishName,
          Message := c.query, CreatedAt := formatDate fmt c.createdAt }) ∧
    formatDate fmt none = "—" := by
  refine ⟨List.length_map .., ?_, List.length_map .., ?_, rfl⟩
  · intro i o ho
    rw [exportOrdersRows, List.getElem?_map, ho]
    rfl
  · intro i c hc
    rw [exportContactsRows, List.getElem?_map, hc]
    rfl

/-- Witness for C7 at the concrete singleton collections. -/
theorem C7_witness :
    (exportOrdersRows (fun s => s) [o0])[0]? = some
      { ID := o0._id, Name := o0.firstName.getD "" ++ " " ++ o0.lastName.getD "",
        Email := o0.email, Phone := o0.phone, Address := o0.address, City := o0.city,
        ZipCode := o0.zipCode, Payment := o0.paymentMethod, Status := o0.status,
        TotalItems := totalQty o0.items, TotalPrice := o0.totalPrice,
        CreatedAt := formatDate (fun s => s) o0.createdAt } :=
  (C7_export_shape (fun s => s) [o0] []).2.1 0 o0 rfl

/-- C8 counterexample: the menu-items controller `ListItemsPage` is
constructed with `loading = false`, refuting "for every resource list
controller ... loading=true" (it also has no inline error state at all). -/
theorem C8_counterexample : ListItemsPage_initial.loading ≠ true := by
  simp [ListItemsPage_initial]

/-- C8 (amended): the order, contact and combined admin-panel controllers
start with loading=true, error=null and an empty collection, while the
menu-items controller starts with loading=false, an empty collection and
no inline error state. -/
theorem C8_initial_states :
    OrderManagement_initial = { orders := [], loading := true, error := none } ∧
    ContactManagement_initial = { contacts := [], loading := true, error := none } ∧
    AdminPanel_initial =
      { orders := [], contacts := .arr [], loading := true, error := none } ∧
    ListItemsPage_initial = { items := [], loading := false } :=
  ⟨rfl, rfl, rfl, rfl⟩

/-- C9: the pairwise-distinct-identifiers invariant is preserved by every
local mutation — the in-place status patch of a successful update, the
removal by id of a successful delete, and the full replacement by a
successful fetch whenever the server's returned set itself satisfies the
invariant. -/
theorem C9_ids_nodup_preserved :
    (∀ st id ns m, orderIdsNodup st.orders →
      orderIdsNodup ((updateStatus st id ns true (some ⟨true, m⟩)).1.orders)) ∧
    (∀ st id m, orderIdsNodup st.orders →
      orderIdsNodup ((deleteOrder st id true true (some ⟨true, m⟩)).1.orders)) ∧
    (∀ st rs m, orderIdsNodup rs →
      orderIdsNodup ((fetchOrders st true (some (BodyJson.obj (some rs) m))).orders)) := by
  refine ⟨?_, ?_, ?_⟩
  · intro st id ns m h
    have hres : (updateStatus st id ns true (some ⟨true, m⟩)).1.orders =
        st.orders.map (fun o => if o._id = id then { o with status := ns } else o) := rfl
    unfold orderIdsNodup at h ⊢
    rw [hres, List.map_map]
    have hcongr :
        st.orders.map
          ((fun o => o._id) ∘ fun o => if o._id = id then { o with status := ns } else o) =
        st.orders.map (fun o => o._id) := by
      apply List.map_congr_left
      intro o _
      by_cases hid : o._id = id <;> simp [Function.comp, hid]
    rw [hcongr]
    exact h
  · intro st id m h
    have hres : (deleteOrder st id true true (some ⟨true, m⟩)).1.orders =
        st.orders.filter (fun o => o._id ≠ id) := rfl
    unfold orderIdsNodup at h ⊢
    rw [hres]
    exact h.sublist ((List.filter_sublist st.orders).map (fun o => o._id))
  · intro st rs m h
    exact h

/-- Witness for C9: the invariant survives a concrete update, delete and
replacement on the singleton collection with identifier "o1". -/
theorem C9_witness :
    orderIdsNodup ((updateStatus ⟨[o0], false, none⟩ "o1" "delivered" true
        (some ⟨true, none⟩)).1.orders) ∧
    orderIdsNodup ((deleteOrder ⟨[o0], false, none⟩ "o1" true true
        (some ⟨true, none⟩)).1.orders) ∧
    orderIdsNodup ((fetchOrders ⟨[], true, none⟩ true
        (some (BodyJson.obj (some [o0]) none))).orders) :=
  ⟨C9_ids_nodup_preserved.1 ⟨[o0], false, none⟩ "o1" "delivered" none
      (by simp [orderIdsNodup]),
   C9_ids_nodup_preserved.2.1 ⟨[o0], false, none⟩ "o1" none (by simp [orderIdsNodup]),
   C9_ids_nodup_preserved.2.2 ⟨[], true, none⟩ [o0] none (by simp [orderIdsNodup])⟩

/-- C10: an order-list fetch whose response is ok but parses to an object
without a (truthy) data field sets the collection to the empty list —
replacing any previously loaded records — clears the inline error, ends
loading, and the table then renders the empty-state row, not an error
row; likewise for the combined admin-panel fetch. -/
theorem C10_ok_without_data_field :
    (∀ st m, fetchOrders st true (some (BodyJson.obj none m)) =
        { orders := [], loading := false, error := none }) ∧
    (∀ st m cb, fetchData st true (some (BodyJson.obj none m)) true (some cb) =
        { orders := [], contacts := cb, loading := false, error := none }) ∧
    orderContent [] false none = [Row.emptyRow] :=
  ⟨fun _ _ => rfl, fun _ _ _ => rfl, rfl⟩

end Foodify
